import Mathlib

/-!
Verification of the Filter & Analytics Engine of the NYC Motor Vehicle
Collisions dashboard (src/app.py).

The relevant functions of the source are shallowly embedded here:
a pandas DataFrame row becomes a `Record`, the filter-criteria dict of
`apply_filters` becomes `Filters` over a small model `PyVal` of Python
values (capturing Python truthiness and dynamic typing), and the
pandas column operations become list operations.  All definitions are
translated from src/app.py; comments give the corresponding lines.
-/

namespace CrashApp

/-- Model of the Python values that can appear in the filter dict of
`apply_filters` (src/app.py lines 297-351): None, a string, an int or
a float.  Floats are modelled as rationals (only equality with other
numbers is ever used). -/
inductive PyVal where
  | none
  | str (s : String)
  | int (n : Int)
  | float (q : Rat)
deriving DecidableEq

/-- Python truthiness of a `PyVal`: `None`, `''`, `0` and `0.0` are falsy. -/
def PyVal.truthy : PyVal → Bool
  | .none => false
  | .str s => s != ""
  | .int n => n != 0
  | .float q => q != 0

/-- The guard `filters.get(k) and filters[k] != 'All'` used for every
dimension in `apply_filters` (lines 311, 315, 320, 327, 334). -/
def PyVal.active (v : PyVal) : Bool := v.truthy && !(decide (v = PyVal.str "All"))

/-- Python `isinstance(v, (int, float))` (line 316). -/
def PyVal.isNumber : PyVal → Bool
  | .int _ => true
  | .float _ => true
  | _ => false

/-- Pandas elementwise `series == value` for a string cell: a non-string
filter value compares unequal to every string. -/
def PyVal.eqStr : PyVal → String → Bool
  | .str s, t => t == s
  | _, _ => false

/-- One row of the loaded dataset, restricted to the columns that the
core engine reads.  After `load_data` (lines 29-92) the string columns
hold `''` for missing values, while the numeric columns may hold NaN,
modelled as `Option`. -/
structure Record where
  borough : String
  crashYear : Option Int
  vehicleType1 : String
  vehicleType2 : String
  factor1 : String
  factor2 : String
  pedInjured : Option Int
  pedKilled : Option Int
  cycInjured : Option Int
  cycKilled : Option Int
  motInjured : Option Int
  motKilled : Option Int
  totalInjured : Option Rat
  totalKilled : Option Rat
  latitude : Option Rat
  longitude : Option Rat
deriving DecidableEq

/-- The filter dict passed to `apply_filters` (lines 297-351). -/
structure Filters where
  borough : PyVal
  year : PyVal
  vehicleType : PyVal
  contributingFactor : PyVal
  injuryType : PyVal
deriving DecidableEq

/-- Pandas `series == n` for the numeric `CRASH_YEAR` column against a
numeric filter value; a NaN cell compares unequal (line 317). -/
def yearCellEq (v : PyVal) (y? : Option Int) : Bool :=
  match y?, v with
  | some y, .int n => y == n
  | some y, .float q => (y : Rat) == q
  | _, _ => false

/-- Pandas `series > 0` for a nullable count column; NaN compares false
(lines 336-349). -/
def posCount : Option Int → Bool
  | some n => 0 < n
  | none => false

/-- Shallow embedding of `apply_filters(df, filters)` (src/app.py lines
297-351): five sequential mask-and-subset stages, each guarded by the
activity test on its criteria field. -/
def applyFilters (rows : List Record) (f : Filters) : List Record :=
  let d1 := if f.borough.active then
      rows.filter (fun r => f.borough.eqStr r.borough)
    else rows
  let d2 := if f.year.active then
      (if f.year.isNumber then d1.filter (fun r => yearCellEq f.year r.crashYear) else d1)
    else d1
  let d3 := if f.vehicleType.active then
      d2.filter (fun r => f.vehicleType.eqStr r.vehicleType1 || f.vehicleType.eqStr r.vehicleType2)
    else d2
  let d4 := if f.contributingFactor.active then
      d3.filter (fun r => f.contributingFactor.eqStr r.factor1 || f.contributingFactor.eqStr r.factor2)
    else d3
  let d5 := if f.injuryType.active then
      (if decide (f.injuryType = PyVal.str "Pedestrian") then
        d4.filter (fun r => posCount r.pedInjured || posCount r.pedKilled)
      else if decide (f.injuryType = PyVal.str "Cyclist") then
        d4.filter (fun r => posCount r.cycInjured || posCount r.cycKilled)
      else if decide (f.injuryType = PyVal.str "Motorist") then
        d4.filter (fun r => posCount r.motInjured || posCount r.motKilled)
      else d4)
    else d4
  d5

/-- The borough stage of `applyFilters` as a single predicate. -/
def boroughPass (f : Filters) (r : Record) : Bool :=
  if f.borough.active then f.borough.eqStr r.borough else true

/-- The year stage of `applyFilters` as a single predicate. -/
def yearPass (f : Filters) (r : Record) : Bool :=
  if f.year.active then
    (if f.year.isNumber then yearCellEq f.year r.crashYear else true)
  else true

/-- The vehicle-type stage of `applyFilters` as a single predicate. -/
def vehiclePass (f : Filters) (r : Record) : Bool :=
  if f.vehicleType.active then
    f.vehicleType.eqStr r.vehicleType1 || f.vehicleType.eqStr r.vehicleType2
  else true

/-- The contributing-factor stage of `applyFilters` as a single predicate. -/
def factorPass (f : Filters) (r : Record) : Bool :=
  if f.contributingFactor.active then
    f.contributingFactor.eqStr r.factor1 || f.contributingFactor.eqStr r.factor2
  else true

/-- The injury-type stage of `applyFilters` as a single predicate. -/
def injuryPass (f : Filters) (r : Record) : Bool :=
  if f.injuryType.active then
    (if decide (f.injuryType = PyVal.str "Pedestrian") then
      posCount r.pedInjured || posCount r.pedKilled
    else if decide (f.injuryType = PyVal.str "Cyclist") then
      posCount r.cycInjured || posCount r.cycKilled
    else if decide (f.injuryType = PyVal.str "Motorist") then
      posCount r.motInjured || posCount r.motKilled
    else true)
  else true

/-- Conjunction of all five stage predicates, nested the way the five
`List.filter` stages compose. -/
def fullPred (f : Filters) (r : Record) : Bool :=
  injuryPass f r && (factorPass f r && (vehiclePass f r && (yearPass f r && boroughPass f r)))

/-! ### Categorical Normalizer: `get_dropdown_options` (src/app.py lines 189-295)

The DataFrame here is modelled column-wise: each column that the
function may read is `Option (List _)` — `Option.none` meaning the
column is absent from the frame.  Accessing an absent column with
`df[col]` raises `KeyError` in pandas, modelled by `Except.error`;
the guarded accesses (`if col in df.columns`) stay total. -/

/-- Column view of the loaded DataFrame as read by `get_dropdown_options`. -/
structure OptionDF where
  borough : Option (List String)
  crashYear : Option (List (Option Int))
  vt1 : Option (List String)
  vt2 : Option (List String)
  cf1 : Option (List (Option String))
  cf2 : Option (List (Option String))

/-- The dropdown option sets built by `get_dropdown_options`. -/
structure OptionSets where
  boroughs : List String
  years : List Int
  vehicleTypes : List String
  contributingFactors : List String
  injuryTypes : List String
deriving DecidableEq

/-- Pandas `df.empty`: no rows (every present column is empty). -/
def OptionDF.isEmptyDF (df : OptionDF) : Bool :=
  (df.borough.getD []).isEmpty && (df.crashYear.getD []).isEmpty &&
    (df.vt1.getD []).isEmpty && (df.vt2.getD []).isEmpty &&
    (df.cf1.getD []).isEmpty && (df.cf2.getD []).isEmpty

/-- Python `str.isdigit()`: non-empty and all digits. -/
def pyIsDigit (s : String) : Bool := (s != "") && s.toList.all (fun c => c.isDigit)

/-- Number of alphabetic characters of a string (`sum(c.isalpha() for c in s)`). -/
def alphaCount (s : String) : Nat := (s.toList.filter (fun c => c.isAlpha)).length

/-- Whether the first character satisfies a test (`s[0].isdigit()`, `s.startswith(c)`). -/
def firstChar (s : String) (p : Char → Bool) : Bool :=
  match s.toList with
  | c :: _ => p c
  | [] => false

/-- Lexicographic order on character lists, the Python string order
used by `sorted(...)` (kept structurally recursive so that it
evaluates inside the kernel). -/
def chListLe : List Char → List Char → Bool
  | [], _ => true
  | _ :: _, [] => false
  | a :: as, b :: bs =>
      if a.toNat < b.toNat then true
      else if b.toNat < a.toNat then false
      else chListLe as bs

/-- Python string comparison `a <= b`. -/
def strLe (a b : String) : Bool := chListLe a.toList b.toList

/-- Python `str.lower()` (kept kernel-computable via the character list). -/
def strLower (s : String) : String := String.mk (s.toList.map Char.toLower)

/-- Python `str.strip()`. -/
def pyStrip (s : String) : String :=
  String.mk (((s.toList.dropWhile Char.isWhitespace).reverse.dropWhile Char.isWhitespace).reverse)

/-- Ascending sort of strings (`sorted(...)`). -/
def sortStr (l : List String) : List String :=
  List.insertionSort (fun a b => strLe a b = true) l

/-- Ascending sort of integers (`sorted(...)`). -/
def sortInt (l : List Int) : List Int := List.insertionSort (fun a b => a ≤ b) l

/-- Pandas `series.value_counts()`: one `(value, frequency)` pair per
distinct value, ranked by frequency descending. -/
def valueCounts (xs : List String) : List (String × Nat) :=
  List.insertionSort (fun a b => b.2 ≤ a.2) (xs.dedup.map (fun k => (k, xs.count k)))

/-- `vehicle_counts.get(v, 0)` (lines 258, 266). -/
def countOf (counts : List (String × Nat)) (v : String) : Nat :=
  (((counts.find? (fun p => p.1 == v)).map (fun p => p.2)).getD 0)

/-- The `invalid_patterns` list for vehicle types (line 231). -/
def invalidVehicleStrings : List String :=
  ["", "nan", "None", "Unknown", "-", ".", "0", "1", "2", "3", "4", "5", "6", "7", "8", "9"]

/-- The `invalid_patterns` list for contributing factors (line 275). -/
def invalidFactorStrings : List String :=
  ["", "nan", "None", "Unspecified", "Unknown", "-", ".", "0", "1", "2"]

/-- Validity test for a stripped vehicle-type string (lines 237-244).
`Char.ofNat 39` is the apostrophe used by `startswith` on line 241. -/
def vehicleValid (s : String) : Bool :=
  (s != "") && !(invalidVehicleStrings.contains s) && (4 ≤ s.length) &&
    !(pyIsDigit s) && !(firstChar s (fun c => c == Char.ofNat 39)) &&
    !(firstChar s (fun c => c == '(')) && !(firstChar s (fun c => c.isDigit)) &&
    (2 ≤ alphaCount s)

/-- One step of the case-insensitive dedup loop (lines 248-261): state is
(`seen_lower` as an association list, `deduplicated`). -/
def vehicleDedupStep (counts : List (String × Nat)) (st : List (String × String) × List String)
    (v : String) : List (String × String) × List String :=
  let low := strLower v
  match st.1.find? (fun p => p.1 == low) with
  | Option.none => (st.1 ++ [(low, v)], st.2 ++ [v])
  | Option.some p =>
      if countOf counts p.2 < countOf counts v then
        (st.1.map (fun q => if q.1 == low then (low, v) else q), (st.2.erase p.2) ++ [v])
      else st

/-- Vehicle-type Option Set from the two pooled columns (lines 226-268):
frequency count, validity filter on stripped values, case-insensitive
dedup keeping the more frequent casing, rank by (count, label)
descending, truncate to 50, final alphabetical sort. -/
def vehicleOptionsOf (v1 v2 : List String) : List String :=
  let counts := valueCounts (v1 ++ v2)
  let valid := counts.filterMap (fun p =>
    let s := pyStrip p.1
    if vehicleValid s then some s else Option.none)
  let ded := (valid.foldl (vehicleDedupStep counts) ([], [])).2
  let ranked := (List.insertionSort (fun a b =>
    countOf counts b < countOf counts a ∨
      (countOf counts b = countOf counts a ∧ strLe b a = true)) ded).take 50
  sortStr ranked

/-- Validity test for a stripped contributing-factor string (lines 280-284). -/
def factorValid (s : String) : Bool :=
  (s != "") && !(invalidFactorStrings.contains s) && (3 < s.length) &&
    !(pyIsDigit s) && s.toList.any (fun c => c.isAlpha)

/-- Contributing-factor Option Set (lines 271-293): the two factor
columns pooled with `dropna().unique()`, validity filter on stripped
values, dedup, alphabetical sort.  The `encode/decode` round trip of
line 287 is the identity here. -/
def factorOptionsOf (c1 c2 : List (Option String)) : List String :=
  let f1 := (c1.filterMap id).dedup
  let f2 := (c2.filterMap id).dedup
  let pooled := (f1 ++ f2).dedup
  let factors := (pooled.map (fun f => pyStrip f)).filter factorValid
  sortStr factors.dedup

/-- Borough Option Set (lines 206-208): unique non-empty, non-blank
values, sorted. -/
def boroughOptionsOf (col : List String) : List String :=
  sortStr (col.dedup.filter (fun b => (b != "") && (pyStrip b != "")))

/-- Year Option Set (lines 211-221): unique years inside [1900, 2100],
deduplicated and sorted ascending. -/
def yearOptionsOf (col : List (Option Int)) : List Int :=
  let valid := (col.filterMap id).dedup.filter (fun y => decide (1900 ≤ y) && decide (y ≤ 2100))
  sortInt valid.dedup

/-- The fixed base record of option sets (lines 197-200). -/
def baseOptionSets : OptionSets :=
  { boroughs := [], years := [], vehicleTypes := [], contributingFactors := [],
    injuryTypes := ["All", "Pedestrian", "Cyclist", "Motorist"] }

/-- The contributing-factor branch (line 271): `CONTRIBUTING_FACTOR_VEHICLE_2`
is accessed only under an `in df.columns` guard, so an absent second
column falls back to `[]` and never raises. -/
def withFactors (o : OptionSets) (df : OptionDF) : OptionSets :=
  match df.cf1 with
  | Option.some c1 => { o with contributingFactors := factorOptionsOf c1 (df.cf2.getD []) }
  | Option.none => o

/-- Shallow embedding of `get_dropdown_options(df)` (lines 189-295).
The vehicle-type branch concatenates `df['VEHICLE_TYPE_CODE_1']` and
`df['VEHICLE_TYPE_CODE_2']` unguarded (line 226), so a frame that has
the first but not the second vehicle column raises `KeyError`. -/
def getDropdownOptions (df : OptionDF) : Except String OptionSets :=
  if df.isEmptyDF then Except.ok baseOptionSets
  else
    let o1 := match df.borough with
      | Option.some col => { baseOptionSets with boroughs := boroughOptionsOf col }
      | Option.none => baseOptionSets
    let o2 := match df.crashYear with
      | Option.some col => { o1 with years := yearOptionsOf col }
      | Option.none => o1
    match df.vt1 with
    | Option.some v1 =>
        match df.vt2 with
        | Option.none => Except.error "KeyError: VEHICLE_TYPE_CODE_2"
        | Option.some v2 => Except.ok (withFactors { o2 with vehicleTypes := vehicleOptionsOf v1 v2 } df)
    | Option.none => Except.ok (withFactors o2 df)

/-! ### Query Parser: `parse_search_query` (src/app.py lines 101-187) -/

/-- Python substring test `key in text` on the lower-cased query. -/
def containsKey (hay key : String) : Bool := decide (key.toList <:+: hay.toList)

/-- Python regex word character for ASCII text: letter, digit or underscore. -/
def isWordChar (c : Char) : Bool := c.isAlphanum || c == '_'

/-- Numeric value of an ASCII digit. -/
def digitVal (c : Char) : Nat := c.toNat - 48

/-- Whether the regex `\b(19|20)\d{2}\b` (line 138) matches at position
`i` of the character list, and the integer value of the matched token. -/
def yearTokenAt (s : List Char) (i : Nat) : Option Nat :=
  match s[i]?, s[i+1]?, s[i+2]?, s[i+3]? with
  | some c1, some c2, some c3, some c4 =>
      if (((c1 == '1') && (c2 == '9')) || ((c1 == '2') && (c2 == '0')))
          && c3.isDigit && c4.isDigit
          && (match i, s[i-1]? with
              | 0, _ => true
              | _ + 1, some p => !isWordChar p
              | _ + 1, Option.none => true)
          && (match s[i+4]? with
              | some nx => !isWordChar nx
              | Option.none => true)
      then some (1000 * digitVal c1 + 100 * digitVal c2 + 10 * digitVal c3 + digitVal c4)
      else Option.none
  | _, _, _, _ => Option.none

/-- Left-to-right scan of `re.search`: try each start position in turn,
returning the leftmost match. -/
def scanYear (s : List Char) : Nat → Nat → Option Nat
  | _, 0 => Option.none
  | i, fuel + 1 =>
      match yearTokenAt s i with
      | some y => some y
      | Option.none => scanYear s (i + 1) fuel

/-- `re.search(r'\b(19|20)\d{2}\b', query)` together with the `int()`
conversion, which cannot fail on a 4-digit token (lines 138-145). -/
def searchYearToken (s : List Char) : Option Nat := scanYear s 0 s.length

/-- The partial filter criteria produced by `parse_search_query`. -/
structure ParsedFilters where
  borough : Option String
  year : Option Nat
  vehicleType : Option String
  contributingFactor : Option String
  injuryType : Option String
deriving DecidableEq

/-- The borough keyword table (lines 127-131), in dict insertion order. -/
def boroughTable : List (String × String) :=
  [("brooklyn", "BROOKLYN"), ("manhattan", "MANHATTAN"), ("queens", "QUEENS"),
   ("bronx", "BRONX"), ("staten island", "STATEN ISLAND")]

/-- The vehicle keyword table (lines 149-159), in dict insertion order. -/
def vehicleTable : List (String × String) :=
  [("sedan", "Sedan"),
   ("suv", "Station Wagon/Sport Utility Vehicle"),
   ("sport utility", "Station Wagon/Sport Utility Vehicle"),
   ("truck", "Truck"), ("pickup", "Pick-up Truck"),
   ("motorcycle", "Motorcycle"), ("moped", "Moped"),
   ("bicycle", "Bicycle"), ("bike", "Bicycle"),
   ("bus", "Bus"), ("van", "Van"), ("taxi", "Taxi"), ("ambulance", "Ambulance")]

/-- The contributing-factor keyword table (lines 174-181). -/
def factorTable : List (String × String) :=
  [("speeding", "Unsafe Speed"), ("speed", "Unsafe Speed"),
   ("alcohol", "Alcohol Involvement"), ("drunk", "Alcohol Involvement"),
   ("distraction", "Driver Inattention/Distraction"),
   ("inattention", "Driver Inattention/Distraction"),
   ("red light", "Traffic Control Disregarded"),
   ("stop sign", "Traffic Control Disregarded")]

/-- Shallow embedding of `parse_search_query(query)` (lines 101-187):
first-match-wins lookups over the keyword tables on the lower-cased
query, the year regex on the original query (run twice, as in the
source, where the second equivalent pattern extracts the value), and
the pedestrian / cyclist / motorist priority chain. -/
def parseSearchQuery (query : String) : ParsedFilters :=
  if query == "" then
    { borough := Option.none, year := Option.none, vehicleType := Option.none,
      contributingFactor := Option.none, injuryType := Option.none }
  else
    let ql := strLower query
    { borough := (boroughTable.find? (fun kv => containsKey ql kv.1)).map (fun kv => kv.2)
      year := match searchYearToken query.toList with
        | some _ => searchYearToken query.toList
        | Option.none => Option.none
      vehicleType := (vehicleTable.find? (fun kv => containsKey ql kv.1)).map (fun kv => kv.2)
      contributingFactor := (factorTable.find? (fun kv => containsKey ql kv.1)).map (fun kv => kv.2)
      injuryType :=
        if containsKey ql "pedestrian" then some "Pedestrian"
        else if containsKey ql "cyclist" || containsKey ql "bicycle" then some "Cyclist"
        else if containsKey ql "motorist" || containsKey ql "driver" then some "Motorist"
        else Option.none }

/-- The vehicle keywords that precede `"bicycle"` in the table's
iteration order. -/
def earlierVehicleKeys : List String :=
  ["sedan", "suv", "sport utility", "truck", "pickup", "motorcycle", "moped"]

/-- Follows the claim wording only, for comparison with the source
embedding: the pattern `(19|20)\d\d` applied at position `i` with NO
word-boundary conditions. -/
def plainYearAt (s : List Char) (i : Nat) : Option Nat :=
  match s[i]?, s[i+1]?, s[i+2]?, s[i+3]? with
  | some c1, some c2, some c3, some c4 =>
      if (((c1 == '1') && (c2 == '9')) || ((c1 == '2') && (c2 == '0')))
          && c3.isDigit && c4.isDigit
      then some (1000 * digitVal c1 + 100 * digitVal c2 + 10 * digitVal c3 + digitVal c4)
      else Option.none
  | _, _, _, _ => Option.none

/-! ### Aggregation: summary statistics, geolocation sample, top factors
(src/app.py lines 742-826 and 1038-1133) -/

/-- `filtered_df['TOTAL_INJURED'].sum()` (line 753): pandas sums over a
nullable column, skipping NaN. -/
def totalInjuredOf (rows : List Record) : Rat :=
  (rows.map (fun r => r.totalInjured.getD 0)).sum

/-- `avg_injured = total_injured / total_crashes if total_crashes > 0 else 0`
(line 759). -/
def avgInjuredOf (rows : List Record) : Rat :=
  if 0 < rows.length then totalInjuredOf rows / (rows.length : Rat) else 0

/-- The geolocation qualification mask (lines 1041-1046): both
coordinates present and non-zero. -/
def geoQualify (r : Record) : Bool :=
  match r.latitude, r.longitude with
  | some a, some b => decide (a ≠ 0) && decide (b ≠ 0)
  | _, _ => false

/-- `max_points = 2000` (line 1050). -/
def maxMapPoints : Nat := 2000

/-- A linear congruential step, standing in for the pandas random
number generator seeded by `random_state`. -/
def lcg (s : Nat) : Nat := (s * 1103515245 + 12345) % 2147483648

/-- Deterministic sampling without replacement, the model of
`df.sample(n=n, random_state=seed)` (line 1052): at each step one
remaining element is selected by the seeded generator. -/
def sampleList {α : Type} : Nat → Nat → List α → List α
  | 0, _, _ => []
  | _ + 1, _, [] => []
  | n + 1, s, x :: xs =>
      (x :: xs).get ⟨s % (x :: xs).length, Nat.mod_lt s (Nat.succ_pos xs.length)⟩ ::
        sampleList n (lcg s) ((x :: xs).eraseIdx (s % (x :: xs).length))

/-- The geolocation series (lines 1041-1052): qualifying records,
down-sampled to `maxMapPoints` with the fixed seed 42 when larger. -/
def geoSample (rows : List Record) : List Record :=
  if maxMapPoints < (rows.filter geoQualify).length then
    sampleList maxMapPoints 42 (rows.filter geoQualify)
  else rows.filter geoQualify

/-- The two contributing-factor columns pooled (lines 1096-1099); after
loading, the string columns are never NaN, so `dropna()` drops nothing. -/
def factorPool (rows : List Record) : List String :=
  rows.map (fun r => r.factor1) ++ rows.map (fun r => r.factor2)

/-- The top-contributing-factors series (lines 1096-1103): pooled
factors, `'Unspecified'` excluded, `value_counts().head(10)`. -/
def topFactors (rows : List Record) : List (String × Nat) :=
  (valueCounts ((factorPool rows).filter (fun s => s != "Unspecified"))).take 10

/-! ### Concrete data used by witnesses and counterexamples -/

/-- A well-formed demo record. -/
def demoRecord : Record :=
  { borough := "BROOKLYN", crashYear := some 2021,
    vehicleType1 := "Sedan", vehicleType2 := "",
    factor1 := "Unsafe Speed", factor2 := "",
    pedInjured := some 1, pedKilled := some 0,
    cycInjured := some 0, cycKilled := some 0,
    motInjured := some 0, motKilled := some 0,
    totalInjured := some 1, totalKilled := some 0,
    latitude := some 40, longitude := some (-74) }

/-- A one-record demo dataset. -/
def demoRows : List Record := [demoRecord]

/-- The all-absent criteria record. -/
def noFilters : Filters :=
  { borough := PyVal.none, year := PyVal.none, vehicleType := PyVal.none,
    contributingFactor := PyVal.none, injuryType := PyVal.none }

/-- Criteria whose borough value lies outside the Option Set of `demoRows`. -/
def atlantisFilters : Filters := { noFilters with borough := PyVal.str "ATLANTIS" }

/-- The demo dataset seen column-wise, as `get_dropdown_options` reads it. -/
def demoDF : OptionDF :=
  { borough := some ["BROOKLYN"], crashYear := some [some 2021],
    vt1 := some ["Sedan"], vt2 := some [""],
    cf1 := some [some "Unsafe Speed"], cf2 := some [Option.none] }

/-- A frame with the first vehicle-type column but not the second. -/
def vt2MissingDF : OptionDF :=
  { borough := Option.none, crashYear := Option.none,
    vt1 := some ["Sedan", "Sedan", "Taxi"], vt2 := Option.none,
    cf1 := Option.none, cf2 := Option.none }

/-- A record qualifying for the geolocation series. -/
def geoRecord : Record := demoRecord

/-- 3000 qualifying records. -/
def bigRows : List Record := List.replicate 3000 geoRecord

/-! ### Helper lemmas -/

theorem injury_chain_filter {α : Type} (b1 b2 b3 : Bool) (p1 p2 p3 : α → Bool) (l : List α) :
    (if b1 then l.filter p1 else if b2 then l.filter p2 else if b3 then l.filter p3 else l)
      = l.filter (fun r => if b1 then p1 r else if b2 then p2 r else if b3 then p3 r else true) := by
  cases b1 <;> cases b2 <;> cases b3 <;> simp

/-- `applyFilters` is a single `List.filter` by the conjunction of the
active per-dimension predicates. -/
theorem applyFilters_eq_filter (rows : List Record) (f : Filters) :
    applyFilters rows f = rows.filter (fun r => fullPred f r) := by
  simp only [applyFilters, fullPred, boroughPass, yearPass, vehiclePass, factorPass, injuryPass]
  rw [injury_chain_filter]
  cases hb : f.borough.active <;> cases hy : f.year.active <;> cases hyn : f.year.isNumber <;>
    cases hv : f.vehicleType.active <;> cases hc : f.contributingFactor.active <;>
      cases hi : f.injuryType.active <;>
    simp [hb, hy, hyn, hv, hc, hi, List.filter_filter]

/-- A field that is absent or the `"All"` sentinel fails the activity guard. -/
theorem active_false_of_absent_or_all (v : PyVal) (h : v = PyVal.none ∨ v = PyVal.str "All") :
    v.active = false := by
  rcases h with h | h <;> subst h <;> decide

/-! ### Claims -/

/-- C1: for every dataset, applying the filter engine with a criteria
record in which every field is absent or equal to the sentinel `"All"`
returns the full dataset unchanged in both record order and content
(`apply_filters` acts as the identity). -/
theorem spec_C1_all_absent_identity (rows : List Record) (f : Filters)
    (h : (f.borough = PyVal.none ∨ f.borough = PyVal.str "All") ∧
         (f.year = PyVal.none ∨ f.year = PyVal.str "All") ∧
         (f.vehicleType = PyVal.none ∨ f.vehicleType = PyVal.str "All") ∧
         (f.contributingFactor = PyVal.none ∨ f.contributingFactor = PyVal.str "All") ∧
         (f.injuryType = PyVal.none ∨ f.injuryType = PyVal.str "All")) :
    applyFilters rows f = rows := by
  obtain ⟨h1, h2, h3, h4, h5⟩ := h
  simp [applyFilters, active_false_of_absent_or_all _ h1, active_false_of_absent_or_all _ h2,
    active_false_of_absent_or_all _ h3, active_false_of_absent_or_all _ h4,
    active_false_of_absent_or_all _ h5]

/-- C1 witness: the all-absent criteria leave the demo dataset unchanged. -/
theorem spec_C1_witness : applyFilters demoRows noFilters = demoRows :=
  spec_C1_all_absent_identity demoRows noFilters
    (by exact ⟨Or.inl rfl, Or.inl rfl, Or.inl rfl, Or.inl rfl, Or.inl rfl⟩)

/-- C5: for every dataset and criteria record, `apply_filters` is
idempotent: applying the same criteria to the result of applying it once
yields the same subset as applying it once. -/
theorem spec_C5_idempotent (rows : List Record) (f : Filters) :
    applyFilters (applyFilters rows f) f = applyFilters rows f := by
  simp [applyFilters_eq_filter, List.filter_filter]

/-- C2 counterexample: the criteria value `"ATLANTIS"` lies outside the
borough Option Set of the demo dataset, yet `apply_filters` does not
treat it as "no constraint": it filters on it (yielding the empty
subset) instead of returning the result of the remaining constraints
alone. -/
theorem spec_C2_counterexample :
    (getDropdownOptions demoDF).map (fun o => o.boroughs.contains "ATLANTIS") = Except.ok false ∧
      applyFilters demoRows atlantisFilters ≠ applyFilters demoRows noFilters := by
  exact ⟨rfl, by decide⟩

/-- C2 as amended: `apply_filters` is total (every well-typed input
yields a result), and the "treated as no constraint" behaviour holds
for exactly these malformed values: a string year value (which fails
the `isinstance` check) and an injury-type value outside
{Pedestrian, Cyclist, Motorist} each impose no constraint — the result
equals applying the remaining constraints alone.  (Out-of-Option-Set
borough, vehicle-type and contributing-factor strings are instead
applied as exact-match predicates; see the counterexample.) -/
theorem spec_C2_amended (rows : List Record) (f : Filters) (s t : String)
    (ht : t ∉ (["Pedestrian", "Cyclist", "Motorist"] : List String)) :
    applyFilters rows { f with year := PyVal.str s } =
        applyFilters rows { f with year := PyVal.none } ∧
      applyFilters rows { f with injuryType := PyVal.str t } =
        applyFilters rows { f with injuryType := PyVal.none } := by
  simp only [List.mem_cons, List.not_mem_nil, or_false, not_or] at ht
  constructor
  · rw [applyFilters_eq_filter, applyFilters_eq_filter]
    congr 1
    funext r
    simp [fullPred, boroughPass, yearPass, vehiclePass, factorPass, injuryPass,
      PyVal.active, PyVal.truthy, PyVal.isNumber]
  · rw [applyFilters_eq_filter, applyFilters_eq_filter]
    congr 1
    funext r
    simp [fullPred, boroughPass, yearPass, vehiclePass, factorPass, injuryPass,
      PyVal.active, PyVal.truthy, PyVal.isNumber, ht.1, ht.2.1, ht.2.2]

/-- C2 witness: concrete malformed values imposing no constraint. -/
theorem spec_C2_witness :
    applyFilters demoRows { noFilters with year := PyVal.str "twenty" } =
        applyFilters demoRows { noFilters with year := PyVal.none } ∧
      applyFilters demoRows { noFilters with injuryType := PyVal.str "Martian" } =
        applyFilters demoRows { noFilters with injuryType := PyVal.none } :=
  spec_C2_amended demoRows noFilters "twenty" "Martian" (by decide)

/-- C3: contrary to the claim (and to the function's own docstring,
"Handles missing columns gracefully"), `get_dropdown_options` raises
`KeyError` when the frame has `VEHICLE_TYPE_CODE_1` but not
`VEHICLE_TYPE_CODE_2`: line 226 concatenates both columns without
guarding the second.  Evaluation of the embedding at such a frame. -/
theorem spec_C3_missing_vt2_raises :
    getDropdownOptions vt2MissingDF = Except.error "KeyError: VEHICLE_TYPE_CODE_2" := rfl

/-- C6: for every filtered subset, the average-injured statistic equals
total injured divided by record count when the count is positive, and
equals 0 (with no division fault) when the subset is empty. -/
theorem spec_C6_avg_injured (rows : List Record) :
    (0 < rows.length → avgInjuredOf rows = totalInjuredOf rows / (rows.length : Rat)) ∧
      avgInjuredOf [] = 0 := by
  constructor
  · intro h
    simp [avgInjuredOf, h]
  · simp [avgInjuredOf]

/-- C6 witness: the non-empty branch at the demo subset. -/
theorem spec_C6_witness :
    0 < demoRows.length ∧
      avgInjuredOf demoRows = totalInjuredOf demoRows / (demoRows.length : Rat) :=
  ⟨by decide, (spec_C6_avg_injured demoRows).1 (by decide)⟩

/-- The deterministic sample has exactly `min n l.length` elements. -/
theorem sampleList_length {α : Type} :
    ∀ (n s : Nat) (l : List α), (sampleList n s l).length = min n l.length
  | 0, _, _ => by simp [sampleList]
  | n + 1, s, [] => by simp [sampleList]
  | n + 1, s, x :: xs => by
      simp only [sampleList, List.length_cons]
      rw [sampleList_length n (lcg s) ((x :: xs).eraseIdx (s % (xs.length + 1))),
        List.length_eraseIdx]
      simp only [List.length_cons]
      split
      · omega
      · next hno => exact absurd (Nat.mod_lt s (Nat.succ_pos xs.length)) hno

/-- C7: for every filtered subset whose set of records with both
coordinates present and non-zero exceeds 2000, the geolocation series
contains exactly 2000 points, and recomputing it on the same subset
with the same fixed seed produces an identical point set (the sampling
is a pure function of the subset and the seed). -/
theorem spec_C7_geo_sample (rows : List Record)
    (h : maxMapPoints < (rows.filter geoQualify).length) :
    (geoSample rows).length = 2000 ∧ geoSample rows = geoSample rows := by
  refine ⟨?_, rfl⟩
  simp only [geoSample, if_pos h]
  rw [sampleList_length]
  unfold maxMapPoints at h ⊢
  omega

/-- C7 witness: 3000 qualifying records yield exactly 2000 points. -/
theorem spec_C7_witness :
    maxMapPoints < (bigRows.filter geoQualify).length ∧ (geoSample bigRows).length = 2000 := by
  have hq : geoQualify geoRecord = true := by decide
  have h : maxMapPoints < (bigRows.filter geoQualify).length := by
    unfold bigRows maxMapPoints
    rw [List.filter_replicate, if_pos hq, List.length_replicate]
    omega
  exact ⟨h, (spec_C7_geo_sample bigRows h).1⟩

instance instTotalDescCount : IsTotal (String × Nat) (fun a b => b.2 ≤ a.2) :=
  ⟨fun a b => Nat.le_total b.2 a.2⟩

instance instTransDescCount : IsTrans (String × Nat) (fun a b => b.2 ≤ a.2) :=
  ⟨fun _ _ _ hab hbc => le_trans hbc hab⟩

/-- C8: for every filtered subset, the contributing-factor series pools
both factor columns, counts no value equal to `"Unspecified"`, is
ranked by frequency descending, and contains at most 10 entries.  Each
entry's count is the pooled count of its value across both columns. -/
theorem spec_C8_top_factors (rows : List Record) :
    (topFactors rows).length ≤ 10 ∧
      (∀ p ∈ topFactors rows, p.1 ≠ "Unspecified" ∧ p.2 = (factorPool rows).count p.1) ∧
      (topFactors rows).Pairwise (fun a b => b.2 ≤ a.2) := by
  refine ⟨List.length_take_le _ _, ?_, ?_⟩
  · intro p hp
    simp only [topFactors, valueCounts] at hp
    have hp' := List.mem_of_mem_take hp
    rw [List.mem_insertionSort] at hp'
    obtain ⟨k, hk, hkp⟩ := List.mem_map.mp hp'
    have hkF := List.mem_filter.mp (List.mem_dedup.mp hk)
    have hne : k ≠ "Unspecified" := by simpa using hkF.2
    have hcnt : List.count k (List.filter (fun s => s != "Unspecified") (factorPool rows)) =
        List.count k (factorPool rows) := List.count_filter hkF.2
    cases hkp
    exact ⟨hne, hcnt⟩
  · simp only [topFactors, valueCounts]
    exact List.Pairwise.sublist (List.take_sublist _ _)
      (List.sorted_insertionSort (fun a b : String × Nat => b.2 ≤ a.2) _)

/-- C8 witness: the demo subset's series at a concrete entry. -/
theorem spec_C8_witness :
    (("Unsafe Speed", 1) : String × Nat) ∈ topFactors demoRows ∧
      ("Unsafe Speed" ≠ "Unspecified" ∧ 1 = (factorPool demoRows).count "Unsafe Speed") := by
  have hmem : (("Unsafe Speed", 1) : String × Nat) ∈ topFactors demoRows := by decide
  exact ⟨hmem, (spec_C8_top_factors demoRows).2.1 _ hmem⟩

/-- Beyond the end of the text the year pattern cannot match. -/
theorem yearTokenAt_none_of_ge (s : List Char) (i : Nat) (h : s.length ≤ i) :
    yearTokenAt s i = Option.none := by
  unfold yearTokenAt
  rw [List.getElem?_eq_none h]

/-- If no position in the scanned window matches, the scan returns none. -/
theorem scanYear_none (s : List Char) :
    ∀ (fuel i : Nat), (∀ k, i ≤ k → k < i + fuel → yearTokenAt s k = Option.none) →
      scanYear s i fuel = Option.none
  | 0, i, _ => rfl
  | fuel + 1, i, h => by
      simp only [scanYear]
      rw [h i (le_refl i) (by omega)]
      exact scanYear_none s fuel (i + 1) (fun k hk1 hk2 => h k (by omega) (by omega))

/-- If position `k` matches and no earlier position in the window does,
the scan returns the match at `k`. -/
theorem scanYear_some (s : List Char) :
    ∀ (fuel i k y : Nat), i ≤ k → k < i + fuel →
      yearTokenAt s k = Option.some y →
      (∀ j, i ≤ j → j < k → yearTokenAt s j = Option.none) →
      scanYear s i fuel = Option.some y
  | 0, i, k, y, h1, h2, _, _ => absurd h2 (by omega)
  | fuel + 1, i, k, y, h1, h2, h3, h4 => by
      simp only [scanYear]
      by_cases hik : k = i
      · subst hik
        rw [h3]
      · rw [h4 i (le_refl i) (by omega)]
        exact scanYear_some s fuel (i + 1) k y (by omega) (by omega) h3
          (fun j hj1 hj2 => h4 j (by omega) hj2)

/-- C4 as amended: the year field is the integer value of the first
4-digit token matching `(19|20)\d\d` that is ALSO delimited by the
regex word boundaries `\b` (not adjacent to a letter, digit or
underscore); when no such bounded token exists the year field is
absent.  (The claim as stated, which requires only a matching 4-digit
substring without the boundary condition, fails; see the
counterexample.) -/
theorem spec_C4_amended (q : String) :
    (∀ i y, yearTokenAt q.toList i = Option.some y →
        (∀ j, j < i → yearTokenAt q.toList j = Option.none) →
        (parseSearchQuery q).year = Option.some y) ∧
      ((∀ i, yearTokenAt q.toList i = Option.none) →
        (parseSearchQuery q).year = Option.none) := by
  constructor
  · intro i y htok hmin
    have hlen : i < q.toList.length := by
      by_contra hge
      rw [yearTokenAt_none_of_ge q.toList i (by omega)] at htok
      exact Option.noConfusion htok
    have hq : ¬(q = "") := by
      intro he
      subst he
      simp at hlen
    have hsearch : searchYearToken q.toList = Option.some y :=
      scanYear_some q.toList q.toList.length 0 i y (Nat.zero_le i) (by omega) htok
        (fun j _ hj => hmin j hj)
    simp only [parseSearchQuery, beq_iff_eq, if_neg hq]
    change (match searchYearToken q.toList with
      | some _ => searchYearToken q.toList
      | Option.none => Option.none) = Option.some y
    rw [hsearch]
  · intro hall
    by_cases hq : q = ""
    · subst hq
      rfl
    · have hsearch : searchYearToken q.toList = Option.none :=
        scanYear_none q.toList q.toList.length 0 (fun k _ _ => hall k)
      simp only [parseSearchQuery, beq_iff_eq, if_neg hq]
      change (match searchYearToken q.toList with
        | some _ => searchYearToken q.toList
        | Option.none => Option.none) = Option.none
      rw [hsearch]

/-- C4 witness: a query with a bounded year token. -/
theorem spec_C4_witness : (parseSearchQuery "crash 2019 report").year = Option.some 2019 := by
  have h1 : yearTokenAt ("crash 2019 report").toList 6 = Option.some 2019 := by decide
  have h2 : ∀ j, j < 6 → yearTokenAt ("crash 2019 report").toList j = Option.none := by decide
  exact (spec_C4_amended "crash 2019 report").1 6 2019 h1 h2

/-- C4 counterexample: the query `"abc2019"` contains the 4-digit
substring `"2019"` matching `(19|20)\d\d` (at position 3, as the
claim's boundary-free pattern confirms), yet the parser leaves the
year absent, because the source regex requires a word boundary and
`'c'` precedes the digits. -/
theorem spec_C4_counterexample :
    (parseSearchQuery "abc2019").year = Option.none ∧
      plainYearAt ("abc2019").toList 3 = Option.some 2019 := by
  exact ⟨by decide, by decide⟩

/-- C9: for every query containing keywords of more than one borough,
the parser sets the borough to the first matching entry in the fixed
table iteration order (brooklyn, manhattan, queens, bronx, staten
island), regardless of which keyword occurs first in the query text;
the borough field always equals this first-match-in-table-order chain,
and in particular `"staten island brooklyn"` parses to `BROOKLYN`. -/
theorem spec_C9_borough_priority :
    (∀ q : String,
      (parseSearchQuery q).borough =
        (if containsKey (strLower q) "brooklyn" then some "BROOKLYN"
         else if containsKey (strLower q) "manhattan" then some "MANHATTAN"
         else if containsKey (strLower q) "queens" then some "QUEENS"
         else if containsKey (strLower q) "bronx" then some "BRONX"
         else if containsKey (strLower q) "staten island" then some "STATEN ISLAND"
         else Option.none)) ∧
      (parseSearchQuery "staten island brooklyn").borough = some "BROOKLYN" := by
  constructor
  · intro q
    by_cases hq : q = ""
    · subst hq
      decide
    · cases h1 : containsKey (strLower q) "brooklyn" <;>
        cases h2 : containsKey (strLower q) "manhattan" <;>
          cases h3 : containsKey (strLower q) "queens" <;>
            cases h4 : containsKey (strLower q) "bronx" <;>
              cases h5 : containsKey (strLower q) "staten island" <;>
        simp [parseSearchQuery, boroughTable, List.find?, hq, h1, h2, h3, h4, h5]
  · decide

/-- C10: for every query whose lower-cased text contains `"bicycle"`,
that one token sets two dimensions: the vehicle type becomes
`"Bicycle"` provided no earlier entry of the vehicle keyword table
matches, and the injury type becomes `"Cyclist"` provided the query
does not also contain `"pedestrian"` (which pre-empts it). -/
theorem spec_C10_bicycle (q : String)
    (hb : containsKey (strLower q) "bicycle" = true) :
    ((∀ k ∈ earlierVehicleKeys, containsKey (strLower q) k = false) →
        (parseSearchQuery q).vehicleType = some "Bicycle") ∧
      (containsKey (strLower q) "pedestrian" = false →
        (parseSearchQuery q).injuryType = some "Cyclist") := by
  have hq : ¬(q = "") := by
    intro he
    subst he
    exact absurd hb (by decide)
  constructor
  · intro hnone
    have k1 := hnone "sedan" (by simp [earlierVehicleKeys])
    have k2 := hnone "suv" (by simp [earlierVehicleKeys])
    have k3 := hnone "sport utility" (by simp [earlierVehicleKeys])
    have k4 := hnone "truck" (by simp [earlierVehicleKeys])
    have k5 := hnone "pickup" (by simp [earlierVehicleKeys])
    have k6 := hnone "motorcycle" (by simp [earlierVehicleKeys])
    have k7 := hnone "moped" (by simp [earlierVehicleKeys])
    simp [parseSearchQuery, vehicleTable, List.find?, hq, hb, k1, k2, k3, k4, k5, k6, k7]
  · intro hp
    simp [parseSearchQuery, hq, hb, hp]

/-- C10 witness: the query `"bicycle"` sets both dimensions. -/
theorem spec_C10_witness :
    (parseSearchQuery "bicycle").vehicleType = some "Bicycle" ∧
      (parseSearchQuery "bicycle").injuryType = some "Cyclist" :=
  ⟨(spec_C10_bicycle "bicycle" (by decide)).1 (by decide),
   (spec_C10_bicycle "bicycle" (by decide)).2 (by decide)⟩

end CrashApp
